import Mathlib

/-!
Shallow embedding of the order-fulfillment core of the Gldcart NestJS backend
(`src/modules/order/services/order.service.ts`) and of the two CartService
variants, together with proofs of the specified properties.

The MongoDB document store is modelled as explicit state (association lists
keyed by numeric ids standing in for ObjectIds).  A MongoDB client session /
transaction is modelled by its observable effect: writes performed inside the
transaction act on a working copy of the state; `commitTransaction` makes the
working copy durable; `abortTransaction` before a commit restores the
pre-transaction snapshot; `abortTransaction` after a commit cannot undo the
committed writes.  Collaborator services that are not part of the sources
(InventoryService, StripeService, EmailService, the Mongoose schemas) are
modelled from the spec and marked as such in their doc comments.
-/

namespace GldCart

/-- Embeds `OrderStatus` (`@order/enums/order-status.enum`): the status
enumeration `PENDING / PAID / FAILED / CANCELLED` used by the order core. -/
inductive OrderStatus
  | pending
  | paid
  | failed
  | cancelled
deriving DecidableEq

/-- A line item of an order: product reference plus quantity.  The unit-price
snapshot is irrelevant to the inventory claims and omitted from the
projection. -/
structure LineItem where
  productId : Nat
  quantity : Nat
deriving DecidableEq

/-- An order document as stored by the order model: its line items, the
requested amount, and the current status. -/
structure OrderRec where
  items : List LineItem
  amount : Nat
  status : OrderStatus
deriving DecidableEq

/-- The error taxonomy of the order core (spec section 7): `NotFoundException`
thrown by `updateOrder`, the stock-insufficiency failure of the inventory
collaborator, the payment gateway failure, and a failure of the
confirmation-email collaborator. -/
inductive OrderError
  | notFound (msg : String)
  | insufficientStock (productId : Nat)
  | gatewayError
  | emailFailed
deriving DecidableEq

/-- The durable database state visible to the order core: the order
collection (id to document), the inventory collection (product id to stock
on hand), and the counter generating fresh order ids. -/
structure DB where
  orders : List (Nat × OrderRec)
  inventory : List (Nat × Nat)
  nextId : Nat
deriving DecidableEq

/-- Embeds `orderModel.findById` on the order collection: the document whose
id matches, if any. -/
def findOrder (orderId : Nat) : List (Nat × OrderRec) → Option OrderRec
  | [] => none
  | (i, o) :: rest => if i = orderId then some o else findOrder orderId rest

/-- Embeds the write performed by `findOneAndUpdate({ _id: orderId },
{ status }, { new: true, session })`: locate the document with the given id,
overwrite its `status` field, and return the updated document (the `new:
true` option) together with the updated collection; `none` when no document
matches. -/
def setOrderStatus (orderId : Nat) (status : OrderStatus) :
    List (Nat × OrderRec) → Option (OrderRec × List (Nat × OrderRec))
  | [] => none
  | (i, o) :: rest =>
    if i = orderId then
      let updated := { o with status := status }
      some (updated, (i, updated) :: rest)
    else
      match setOrderStatus orderId status rest with
      | none => none
      | some (u, rest') => some (u, (i, o) :: rest')

/-- Embeds `OrderService.updateOrder`: conditionally update the order inside
the transaction, throwing `NotFoundException` when no order with that id
exists.  Note that the current status is not inspected: the write overwrites
whatever status the order had. -/
def updateOrder (db : DB) (orderId : Nat) (status : OrderStatus) :
    Except OrderError (OrderRec × DB) :=
  match setOrderStatus orderId status db.orders with
  | none =>
      .error (.notFound ("Order with ID " ++ toString orderId ++ " not found"))
  | some (o, orders') => .ok (o, { db with orders := orders' })

/-- Decrement the stock of one product by `qty`; `none` when the product is
unknown or its stock is insufficient. -/
def decrementStock (productId qty : Nat) :
    List (Nat × Nat) → Option (List (Nat × Nat))
  | [] => none
  | (p, s) :: rest =>
    if p = productId then
      if qty ≤ s then some ((p, s - qty) :: rest) else none
    else
      match decrementStock productId qty rest with
      | none => none
      | some rest' => some ((p, s) :: rest')

/-- Modelled from the spec: `InventoryService.updateInventory` (the Inventory
Adjuster, spec sections 4.4 and 6), whose source is not in the repository
snapshot.  Given the order's line items and the transaction context, it
applies one stock decrement per line item inside the transaction and signals
`InsufficientStock` for the first item that cannot be satisfied; it never
commits or aborts the transaction itself. -/
def updateInventory : List LineItem → DB → Except OrderError DB
  | [], db => .ok db
  | it :: rest, db =>
    match decrementStock it.productId it.quantity db.inventory with
    | none => .error (.insufficientStock it.productId)
    | some inv' => updateInventory rest { db with inventory := inv' }

/-- Modelled from the spec: `EmailService.sendOrderConfirmationEmail` (the
Notifier, spec section 2), whose source is not in the repository snapshot.
The environment flag `emailOk` says whether the send succeeds on this call. -/
def sendOrderConfirmationEmail (emailOk : Bool) : Except OrderError Unit :=
  if emailOk then .ok () else .error .emailFailed

/-- The observable outcome of one `processOrder` call: the value returned or
error thrown, the durable database state afterwards, and how many times the
client session was started and ended. -/
structure ProcessResult where
  result : Except OrderError Unit
  db : DB
  sessionsStarted : Nat
  sessionsEnded : Nat

/-- Embeds `OrderService.processOrder`.  The session snapshot at
`startTransaction` is `db`; `updateOrder` and `updateInventory` act on the
working state.  The `catch` block aborts the transaction (restoring the
snapshot when the transaction was not yet committed, a no-op on durable
state after the commit) and rethrows the error; the `finally` block ends the
session on every path.  The confirmation email is sent inside the `try`
block after `commitTransaction`, so an email failure reaches the `catch`
block with the transaction already committed. -/
def processOrder (db : DB) (orderId : Nat) (status : OrderStatus)
    (emailOk : Bool) : ProcessResult :=
  match updateOrder db orderId status with
  | .error e =>
      { result := .error e, db := db, sessionsStarted := 1, sessionsEnded := 1 }
  | .ok (order, db1) =>
    match updateInventory order.items db1 with
    | .error e =>
        { result := .error e, db := db, sessionsStarted := 1, sessionsEnded := 1 }
    | .ok db2 =>
      match sendOrderConfirmationEmail emailOk with
      | .ok _ =>
          { result := .ok (), db := db2, sessionsStarted := 1, sessionsEnded := 1 }
      | .error e =>
          { result := .error e, db := db2, sessionsStarted := 1, sessionsEnded := 1 }

/-- Embeds `CreateOrderDto` as far as the order core reads it: the line items
and the amount charged. -/
structure CreateOrderDto where
  items : List LineItem
  amount : Nat
deriving DecidableEq

/-- Embeds `OrderService.createOrder`: `new this.orderModel(order)` followed
by `save()`, persisting a new order document under a freshly generated id.
The initial status `PENDING` is modelled from the spec (section 4.1 step 2):
the Mongoose order schema, which supplies the default status, is not in the
repository snapshot. -/
def createOrder (db : DB) (dto : CreateOrderDto) : (Nat × OrderRec) × DB :=
  let o : OrderRec := { items := dto.items, amount := dto.amount, status := .pending }
  ((db.nextId, o),
   { db with orders := db.orders ++ [(db.nextId, o)], nextId := db.nextId + 1 })

/-- A payment intent as the gateway returns it: identity, client-confirmable
secret, the amount, the metadata order id, and the customer reference. -/
structure PaymentIntent where
  intentId : Nat
  client_secret : Nat
  amount : Nat
  metadata_order_id : Nat
  customer : String
deriving DecidableEq

/-- Modelled from the spec: `StripeService.createPaymentIntent` (the Payment
Gateway Client, spec sections 4.3 and 6), whose source is not in the
repository snapshot.  Given the amount, the metadata `{ order_id }` and the
customer reference it returns an intent carrying exactly those fields, or a
gateway error.  `gatewayUp` says whether the external call succeeds and
`secret` is the opaque secret the gateway mints for this intent. -/
def createPaymentIntent (gatewayUp : Bool) (secret : Nat) (amount : Nat)
    (orderId : Nat) (customer : String) : Except OrderError PaymentIntent :=
  if gatewayUp then
    .ok { intentId := secret, client_secret := secret, amount := amount,
          metadata_order_id := orderId, customer := customer }
  else
    .error .gatewayError

/-- The value `placeOrder` returns to the caller: `{ client_secret }`. -/
structure PlaceOrderResponse where
  client_secret : Nat
deriving DecidableEq

/-- Embeds `OrderService.placeOrder`: persist the new order first, then ask
the gateway for a payment intent tagged with `{ order_id: newOrder._id }`
and the Stripe customer id, and return the intent's client secret.  There is
no catch: a gateway error propagates to the caller, and the already-saved
order is not rolled back. -/
def placeOrder (db : DB) (dto : CreateOrderDto) (stripeCustomerId : String)
    (gatewayUp : Bool) (secret : Nat) :
    Except OrderError PlaceOrderResponse × DB :=
  let (newOrder, db1) := createOrder db dto
  match createPaymentIntent gatewayUp secret dto.amount newOrder.1 stripeCustomerId with
  | .error e => (.error e, db1)
  | .ok pi => (.ok { client_secret := pi.client_secret }, db1)

/-! ## The cart data model, shared by both CartService variants

Both variants are `@Injectable()` classes over the same injected
`Model<CartDocument>`, so the Mongoose-model primitives (`findById`,
`findOne({ customer })`, `save`, `findByIdAndDelete`) and the JavaScript
array-mutation helpers are shared; each variant's public and private methods
are embedded separately in their own namespace below. -/

/-- An item record inside a cart: the referenced item id and the quantity. -/
structure CartItem where
  id : Nat
  quantity : Nat
deriving DecidableEq

/-- A cart document: identity, owning customer, item records, and the list
of shipping options. -/
structure Cart where
  id : Nat
  customer : String
  items : List CartItem
  shipping : List String
deriving DecidableEq

/-- The cart collection plus the counter generating fresh cart ids. -/
structure CartStore where
  carts : List Cart
  nextId : Nat
deriving DecidableEq

/-- The only error either CartService throws: `NotFoundException` with its
message. -/
inductive CartError
  | notFound (msg : String)
deriving DecidableEq

/-- Embeds `CreateItemDto` as far as the cart services read it: the item id
and the quantity. -/
structure CreateItemDto where
  id : Nat
  quantity : Nat
deriving DecidableEq

/-- Embeds `UpdateItemDto` as far as `updateItemQuantity` reads it. -/
structure UpdateItemDto where
  quantity : Nat
deriving DecidableEq

/-- Embeds `AddShippingOptionsDto`: a list of shipping options to add. -/
structure AddShippingOptionsDto where
  shipping : List String
deriving DecidableEq

/-- Embeds `RemoveShippingOptionDto`: one shipping option to remove. -/
structure RemoveShippingOptionDto where
  shipping : String
deriving DecidableEq

/-- Embeds `cartModel.findById`. -/
def findCartById (store : CartStore) (id : Nat) : Option Cart :=
  store.carts.find? (fun c => c.id == id)

/-- Embeds `cartModel.findOne({ customer: userId })`: the first cart owned by
the user, if any. -/
def findCartByCustomer (store : CartStore) (userId : String) : Option Cart :=
  store.carts.find? (fun c => c.customer == userId)

/-- Embeds `cart.save()` on a document that already exists in the
collection: the stored document with that id is replaced by the (mutated)
in-memory document. -/
def saveCart (store : CartStore) (cart : Cart) : CartStore :=
  { store with carts := store.carts.map (fun c => if c.id == cart.id then cart else c) }

/-- Embeds `new this.cartModel({ customer, items })` followed by `save()`:
a new cart document under a fresh id with empty shipping options. -/
def insertCart (store : CartStore) (customer : String) (items : List CartItem) :
    Cart × CartStore :=
  let c : Cart := { id := store.nextId, customer := customer, items := items, shipping := [] }
  (c, { store with carts := store.carts ++ [c], nextId := store.nextId + 1 })

/-- Embeds `cartModel.findByIdAndDelete`: the deleted document (if any) and
the collection without it. -/
def deleteCartById (store : CartStore) (id : Nat) : Option Cart × CartStore :=
  match findCartById store id with
  | none => (none, store)
  | some c => (some c, { store with carts := store.carts.filter (fun x => !(x.id == id)) })

/-- Embeds the mutation `item.quantity = q` applied to the first item whose
id matches (`items.find` returns the first match and the assignment mutates
it in place). -/
def setQuantityOfFirst (itemId q : Nat) : List CartItem → List CartItem
  | [] => []
  | item :: rest =>
    if item.id == itemId then { item with quantity := q } :: rest
    else item :: setQuantityOfFirst itemId q rest

namespace CartServiceA

/-! Embeds the first `CartService` variant (`src/unnamed/part_000`). -/

/-- Embeds the private `CartService.getByIdOrThrow`. -/
def getByIdOrThrow (store : CartStore) (id : Nat) : Except CartError Cart :=
  match findCartById store id with
  | none => .error (.notFound ("Cart with ID " ++ toString id ++ " not found"))
  | some cart => .ok cart

/-- Embeds `CartService.getById`. -/
def getById (store : CartStore) (id : Nat) : Except CartError Cart × CartStore :=
  match findCartById store id with
  | none => (.error (.notFound ("Cart with ID " ++ toString id ++ " not found")), store)
  | some cart => (.ok cart, store)

/-- Embeds `CartService.getWithItemsById`; `populate('items.id')` resolves
item references in the returned view and does not change the stored data, so
it is the identity here. -/
def getWithItemsById (store : CartStore) (id : Nat) :
    Except CartError Cart × CartStore :=
  match findCartById store id with
  | none => (.error (.notFound ("Cart with ID " ++ toString id ++ " not found")), store)
  | some cart => (.ok cart, store)

/-- Embeds `CartService.getWithItemsByUserId`. -/
def getWithItemsByUserId (store : CartStore) (userId : String) :
    Except CartError Cart × CartStore :=
  match findCartByCustomer store userId with
  | none => (.error (.notFound ("No carts found for user with id " ++ userId)), store)
  | some cart => (.ok cart, store)

/-- Embeds the private `CartService.createWithItem`. -/
def createWithItem (store : CartStore) (userId : String) (newItem : CreateItemDto) :
    Cart × CartStore :=
  insertCart store userId [{ id := newItem.id, quantity := newItem.quantity }]

/-- Embeds the private `CartService.addItemToExisting`: push the item unless
one with the same id is already present, then save. -/
def addItemToExisting (store : CartStore) (existingCart : Cart)
    (newItem : CreateItemDto) : Cart × CartStore :=
  let itemExists := existingCart.items.any (fun item => item.id == newItem.id)
  let cart' :=
    if itemExists then existingCart
    else { existingCart with
             items := existingCart.items ++ [{ id := newItem.id, quantity := newItem.quantity }] }
  (cart', saveCart store cart')

/-- Embeds `CartService.addItem`. -/
def addItem (store : CartStore) (userId : String) (newItem : CreateItemDto) :
    Except CartError Cart × CartStore :=
  match findCartByCustomer store userId with
  | none =>
      let (c, s) := createWithItem store userId newItem
      (.ok c, s)
  | some existingCart =>
      let (c, s) := addItemToExisting store existingCart newItem
      (.ok c, s)

/-- Embeds `CartService.updateItem`: replace the item at the index of the
first item whose id matches the DTO's id, then save. -/
def updateItem (store : CartStore) (id : Nat) (updateItemDto : CreateItemDto) :
    Except CartError Cart × CartStore :=
  match getByIdOrThrow store id with
  | .error e => (.error e, store)
  | .ok existingCart =>
    match existingCart.items.findIdx? (fun item => item.id == updateItemDto.id) with
    | none =>
        (.error (.notFound ("Item with ID " ++ toString updateItemDto.id
          ++ " not found in cart")), store)
    | some itemIndex =>
        let cart' := { existingCart with
          items := existingCart.items.set itemIndex
            { id := updateItemDto.id, quantity := updateItemDto.quantity } }
        (.ok cart', saveCart store cart')

/-- Embeds `CartService.removeItem`: splice out the item at the index of the
first item whose id matches, then save.  The not-found message interpolates
the cart id, exactly as the source does. -/
def removeItem (store : CartStore) (id : Nat) (itemId : Nat) :
    Except CartError Cart × CartStore :=
  match getByIdOrThrow store id with
  | .error e => (.error e, store)
  | .ok existingCart =>
    match existingCart.items.findIdx? (fun item => item.id == itemId) with
    | none =>
        (.error (.notFound ("Item with ID " ++ toString id ++ " not found in cart")), store)
    | some itemIndex =>
        let cart' := { existingCart with items := existingCart.items.eraseIdx itemIndex }
        (.ok cart', saveCart store cart')

/-- Embeds `CartService.updateItemQuantity`: set the quantity of the first
item whose id matches, then save. -/
def updateItemQuantity (store : CartStore) (id : Nat) (itemId : Nat)
    (updateItemDto : UpdateItemDto) : Except CartError Cart × CartStore :=
  match getByIdOrThrow store id with
  | .error e => (.error e, store)
  | .ok existingCart =>
    if existingCart.items.any (fun i => i.id == itemId) then
      let cart' := { existingCart with
        items := setQuantityOfFirst itemId updateItemDto.quantity existingCart.items }
      (.ok cart', saveCart store cart')
    else
      (.error (.notFound ("Item with ID " ++ toString itemId ++ " not found in cart")), store)

/-- Embeds `CartService.addShippingOption`: push the options not already
included, then save. -/
def addShippingOption (store : CartStore) (id : Nat)
    (shippingOption : AddShippingOptionsDto) : Except CartError Cart × CartStore :=
  match getByIdOrThrow store id with
  | .error e => (.error e, store)
  | .ok cart =>
    let newShippingOptions :=
      shippingOption.shipping.filter (fun option => !(cart.shipping.contains option))
    let cart' := { cart with shipping := cart.shipping ++ newShippingOptions }
    (.ok cart', saveCart store cart')

/-- Embeds `CartService.removeShippingOption`: splice out the option at its
first index if present, else throw; save only on the success path. -/
def removeShippingOption (store : CartStore) (id : Nat)
    (shippingOption : RemoveShippingOptionDto) : Except CartError Cart × CartStore :=
  match getByIdOrThrow store id with
  | .error e => (.error e, store)
  | .ok cart =>
    match cart.shipping.findIdx? (fun s => s == shippingOption.shipping) with
    | some index =>
        let cart' := { cart with shipping := cart.shipping.eraseIdx index }
        (.ok cart', saveCart store cart')
    | none =>
        (.error (.notFound ("Shipping option " ++ shippingOption.shipping
          ++ " not found in cart")), store)

/-- Embeds `CartService.remove`. -/
def remove (store : CartStore) (id : Nat) : Except CartError String × CartStore :=
  match deleteCartById store id with
  | (none, _) =>
      (.error (.notFound ("Cart with ID " ++ toString id ++ " not found")), store)
  | (some _, s) => (.ok "Cart deleted successfully", s)

end CartServiceA

namespace CartServiceB

/-! Embeds the second `CartService` variant (`src/unnamed/part_001`). -/

/-- Embeds the private `CartService.getCartByIdOrThrow`. -/
def getCartByIdOrThrow (store : CartStore) (id : Nat) : Except CartError Cart :=
  match findCartById store id with
  | none => .error (.notFound ("Cart with ID " ++ toString id ++ " not found"))
  | some cart => .ok cart

/-- Embeds `CartService.getCartById`. -/
def getCartById (store : CartStore) (id : Nat) : Except CartError Cart × CartStore :=
  match findCartById store id with
  | none => (.error (.notFound ("Cart with ID " ++ toString id ++ " not found")), store)
  | some cart => (.ok cart, store)

/-- Embeds `CartService.getCartWithItemsById`; `populate('items.id')` is the
identity on stored data, as in the first variant. -/
def getCartWithItemsById (store : CartStore) (id : Nat) :
    Except CartError Cart × CartStore :=
  match findCartById store id with
  | none => (.error (.notFound ("Cart with ID " ++ toString id ++ " not found")), store)
  | some cart => (.ok cart, store)

/-- Embeds `CartService.getWithItemsByUserId`. -/
def getWithItemsByUserId (store : CartStore) (userId : String) :
    Except CartError Cart × CartStore :=
  match findCartByCustomer store userId with
  | none => (.error (.notFound ("No carts found for user with id " ++ userId)), store)
  | some cart => (.ok cart, store)

/-- Embeds the private `CartService.createCartWithItem`. -/
def createCartWithItem (store : CartStore) (userId : String) (newItem : CreateItemDto) :
    Cart × CartStore :=
  insertCart store userId [{ id := newItem.id, quantity := newItem.quantity }]

/-- Embeds the private `CartService.addItemToExistingCart`. -/
def addItemToExistingCart (store : CartStore) (existingCart : Cart)
    (newItem : CreateItemDto) : Cart × CartStore :=
  let itemExists := existingCart.items.any (fun item => item.id == newItem.id)
  let cart' :=
    if itemExists then existingCart
    else { existingCart with
             items := existingCart.items ++ [{ id := newItem.id, quantity := newItem.quantity }] }
  (cart', saveCart store cart')

/-- Embeds `CartService.addItemToCart`. -/
def addItemToCart (store : CartStore) (userId : String) (newItem : CreateItemDto) :
    Except CartError Cart × CartStore :=
  match findCartByCustomer store userId with
  | none =>
      let (c, s) := createCartWithItem store userId newItem
      (.ok c, s)
  | some existingCart =>
      let (c, s) := addItemToExistingCart store existingCart newItem
      (.ok c, s)

/-- Embeds `CartService.updateItemInCart`. -/
def updateItemInCart (store : CartStore) (id : Nat) (updateItemDto : CreateItemDto) :
    Except CartError Cart × CartStore :=
  match getCartByIdOrThrow store id with
  | .error e => (.error e, store)
  | .ok existingCart =>
    match existingCart.items.findIdx? (fun item => item.id == updateItemDto.id) with
    | none =>
        (.error (.notFound ("Item with ID " ++ toString updateItemDto.id
          ++ " not found in cart")), store)
    | some itemIndex =>
        let cart' := { existingCart with
          items := existingCart.items.set itemIndex
            { id := updateItemDto.id, quantity := updateItemDto.quantity } }
        (.ok cart', saveCart store cart')

/-- Embeds `CartService.removeItemFromCart`; the not-found message
interpolates the cart id, exactly as the source does. -/
def removeItemFromCart (store : CartStore) (id : Nat) (itemId : Nat) :
    Except CartError Cart × CartStore :=
  match getCartByIdOrThrow store id with
  | .error e => (.error e, store)
  | .ok existingCart =>
    match existingCart.items.findIdx? (fun item => item.id == itemId) with
    | none =>
        (.error (.notFound ("Item with ID " ++ toString id ++ " not found in cart")), store)
    | some itemIndex =>
        let cart' := { existingCart with items := existingCart.items.eraseIdx itemIndex }
        (.ok cart', saveCart store cart')

/-- Embeds `CartService.updateItemQuantityInCart`. -/
def updateItemQuantityInCart (store : CartStore) (id : Nat) (itemId : Nat)
    (updateItemDto : UpdateItemDto) : Except CartError Cart × CartStore :=
  match getCartByIdOrThrow store id with
  | .error e => (.error e, store)
  | .ok existingCart =>
    if existingCart.items.any (fun i => i.id == itemId) then
      let cart' := { existingCart with
        items := setQuantityOfFirst itemId updateItemDto.quantity existingCart.items }
      (.ok cart', saveCart store cart')
    else
      (.error (.notFound ("Item with ID " ++ toString itemId ++ " not found in cart")), store)

/-- Embeds `CartService.addShippingToCart`. -/
def addShippingToCart (store : CartStore) (id : Nat)
    (shippingOption : AddShippingOptionsDto) : Except CartError Cart × CartStore :=
  match getCartByIdOrThrow store id with
  | .error e => (.error e, store)
  | .ok cart =>
    let newShippingOptions :=
      shippingOption.shipping.filter (fun option => !(cart.shipping.contains option))
    let cart' := { cart with shipping := cart.shipping ++ newShippingOptions }
    (.ok cart', saveCart store cart')

/-- Embeds `CartService.removeShippingInCart`. -/
def removeShippingInCart (store : CartStore) (id : Nat)
    (shippingOption : RemoveShippingOptionDto) : Except CartError Cart × CartStore :=
  match getCartByIdOrThrow store id with
  | .error e => (.error e, store)
  | .ok cart =>
    match cart.shipping.findIdx? (fun s => s == shippingOption.shipping) with
    | some index =>
        let cart' := { cart with shipping := cart.shipping.eraseIdx index }
        (.ok cart', saveCart store cart')
    | none =>
        (.error (.notFound ("Shipping option " ++ shippingOption.shipping
          ++ " not found in cart")), store)

/-- Embeds `CartService.removeCart`. -/
def removeCart (store : CartStore) (id : Nat) : Except CartError String × CartStore :=
  match deleteCartById store id with
  | (none, _) =>
      (.error (.notFound ("Cart with ID " ++ toString id ++ " not found")), store)
  | (some _, s) => (.ok "Cart deleted successfully", s)

end CartServiceB

/-! ## Concrete fixtures used to exercise the theorems -/

/-- A database realising the spec's section 8 atomicity test: one `PENDING`
order (id 0) asking for two units of product 1 and one unit of product 2,
with exactly one unit of each in stock. -/
def dbStockShort : DB :=
  { orders := [(0, { items := [⟨1, 2⟩, ⟨2, 1⟩], amount := 3, status := .pending })],
    inventory := [(1, 1), (2, 1)], nextId := 1 }

/-- A database with one `PENDING` order (id 0) for one unit of product 1 and
two units in stock. -/
def dbPendingOk : DB :=
  { orders := [(0, { items := [⟨1, 1⟩], amount := 5, status := .pending })],
    inventory := [(1, 2)], nextId := 1 }

/-- `dbPendingOk` after the status write of `processOrder _ 0 PAID`. -/
def dbPendingOkPaid : DB :=
  { orders := [(0, { items := [⟨1, 1⟩], amount := 5, status := .paid })],
    inventory := [(1, 2)], nextId := 1 }

/-- `dbPendingOkPaid` after the inventory decrement: the committed state of
`processOrder dbPendingOk 0 PAID`. -/
def dbPendingOkCommitted : DB :=
  { orders := [(0, { items := [⟨1, 1⟩], amount := 5, status := .paid })],
    inventory := [(1, 1)], nextId := 1 }

/-- A database whose only order (id 0) is already in the terminal status
`PAID`, with ample stock of product 1. -/
def dbPaid : DB :=
  { orders := [(0, { items := [⟨1, 1⟩], amount := 5, status := .paid })],
    inventory := [(1, 10)], nextId := 1 }

/-- `dbPaid` after the status write of `processOrder _ 0 CANCELLED`. -/
def dbPaidCancelledMid : DB :=
  { orders := [(0, { items := [⟨1, 1⟩], amount := 5, status := .cancelled })],
    inventory := [(1, 10)], nextId := 1 }

/-- `dbPaidCancelledMid` after the inventory decrement. -/
def dbPaidCancelledDone : DB :=
  { orders := [(0, { items := [⟨1, 1⟩], amount := 5, status := .cancelled })],
    inventory := [(1, 9)], nextId := 1 }

/-- The empty database. -/
def dbEmpty : DB := { orders := [], inventory := [], nextId := 0 }

/-! ## Helper lemmas -/

/-- The conditional status write misses exactly when no document with the id
exists. -/
theorem setOrderStatus_none_iff (oid : Nat) (st : OrderStatus) :
    ∀ l : List (Nat × OrderRec),
      setOrderStatus oid st l = none ↔ findOrder oid l = none := by
  intro l
  induction l with
  | nil => simp [setOrderStatus, findOrder]
  | cons hd tl ih =>
    obtain ⟨i, o⟩ := hd
    by_cases h : i = oid
    · simp [setOrderStatus, findOrder, h]
    · simp only [setOrderStatus, findOrder, h, if_false, ite_false, if_neg, not_false_iff]
      cases hr : setOrderStatus oid st tl with
      | none =>
          simp only [hr] at ih
          simpa using ih
      | some v =>
          obtain ⟨u, rest'⟩ := v
          simp only [hr] at ih
          simpa using ih

/-- What a successful conditional status write guarantees: the returned
document carries the target status and is found under the id in the updated
collection. -/
theorem setOrderStatus_some (oid : Nat) (st : OrderStatus) :
    ∀ (l : List (Nat × OrderRec)) (o : OrderRec) (l' : List (Nat × OrderRec)),
      setOrderStatus oid st l = some (o, l') →
      o.status = st ∧ findOrder oid l' = some o := by
  intro l
  induction l with
  | nil => intro o l' h; simp [setOrderStatus] at h
  | cons hd tl ih =>
    obtain ⟨i, ord⟩ := hd
    intro o l' h
    by_cases hi : i = oid
    · simp only [setOrderStatus, hi, if_true, ite_true, if_pos] at h
      have h' : ({ ord with status := st } : OrderRec) = o ∧
          ((oid, { ord with status := st }) :: tl) = l' := by
        have hinj := h
        simp only [Option.some.injEq, Prod.mk.injEq] at hinj
        exact hinj
      obtain ⟨ho, hl⟩ := h'
      subst ho
      subst hl
      exact ⟨rfl, by simp [findOrder]⟩
    · simp only [setOrderStatus, hi, if_false, ite_false, if_neg, not_false_iff] at h
      cases hr : setOrderStatus oid st tl with
      | none => simp [hr] at h
      | some v =>
          obtain ⟨u, rest'⟩ := v
          simp only [hr, Option.some.injEq, Prod.mk.injEq] at h
          obtain ⟨hu, hl⟩ := h
          subst hu
          subst hl
          have := ih _ rest' hr
          exact ⟨this.1, by simp [findOrder, hi]; exact this.2⟩

/-- The inventory adjuster only touches the inventory collection. -/
theorem updateInventory_preserves_orders :
    ∀ (items : List LineItem) (db db' : DB),
      updateInventory items db = .ok db' → db'.orders = db.orders := by
  intro items
  induction items with
  | nil =>
      intro db db' h
      simp only [updateInventory, Except.ok.injEq] at h
      rw [← h]
  | cons it rest ih =>
      intro db db' h
      simp only [updateInventory] at h
      cases hd : decrementStock it.productId it.quantity db.inventory with
      | none => simp [hd] at h
      | some inv' =>
          simp only [hd] at h
          exact ih { db with inventory := inv' } db' h

/-- The inventory adjuster fails only with a stock-insufficiency error. -/
theorem updateInventory_error_is_stock :
    ∀ (items : List LineItem) (db : DB) (e : OrderError),
      updateInventory items db = .error e → ∃ p, e = .insufficientStock p := by
  intro items
  induction items with
  | nil => intro db e h; simp [updateInventory] at h
  | cons it rest ih =>
      intro db e h
      simp only [updateInventory] at h
      cases hd : decrementStock it.productId it.quantity db.inventory with
      | none =>
          simp only [hd, Except.error.injEq] at h
          exact ⟨it.productId, h.symm⟩
      | some inv' =>
          simp only [hd] at h
          exact ih _ _ h

/-- Appending a document under a fresh id makes it findable under that id. -/
theorem findOrder_append_self (oid : Nat) (o : OrderRec) :
    ∀ l : List (Nat × OrderRec),
      findOrder oid l = none → findOrder oid (l ++ [(oid, o)]) = some o := by
  intro l
  induction l with
  | nil => intro _; simp [findOrder]
  | cons hd tl ih =>
      obtain ⟨i, x⟩ := hd
      intro h
      by_cases hi : i = oid
      · simp [findOrder, hi] at h
      · simp only [findOrder, hi, List.cons_append, if_false, ite_false, if_neg,
          not_false_iff] at h ⊢
        exact ih h

/-- What a successful `updateOrder` guarantees: the returned document carries
the target status and is stored under the id in the updated state. -/
theorem updateOrder_ok (db : DB) (orderId : Nat) (status : OrderStatus)
    (order : OrderRec) (db1 : DB)
    (h : updateOrder db orderId status = .ok (order, db1)) :
    order.status = status ∧ findOrder orderId db1.orders = some order := by
  unfold updateOrder at h
  cases hset : setOrderStatus orderId status db.orders with
  | none => simp [hset] at h
  | some v =>
      obtain ⟨o, orders'⟩ := v
      simp only [hset, Except.ok.injEq, Prod.mk.injEq] at h
      obtain ⟨ho, hdb⟩ := h
      subst ho
      have hss := setOrderStatus_some orderId status db.orders _ orders' hset
      refine ⟨hss.1, ?_⟩
      rw [← hdb]
      exact hss.2

/-- The durable state after a `processOrder` whose transaction commits is the
committed working state, whether or not the confirmation email succeeds. -/
theorem processOrder_db_committed (db : DB) (orderId : Nat) (status : OrderStatus)
    (emailOk : Bool) (order : OrderRec) (db1 db2 : DB)
    (h1 : updateOrder db orderId status = .ok (order, db1))
    (h2 : updateInventory order.items db1 = .ok db2) :
    (processOrder db orderId status emailOk).db = db2 := by
  unfold processOrder
  cases emailOk <;> simp [h1, h2, sendOrderConfirmationEmail]

/-! ## Claim theorems -/

/-- C1: `processOrder` is atomic with respect to the status write and the
inventory decrements: whenever the run fails with an insufficient-stock
error for any line item, the whole transaction is aborted, so no line item
is decremented and the order's status is unchanged — the durable database
state equals the pre-call state exactly. -/
theorem processOrder_atomic_on_inventory_failure (db : DB) (orderId : Nat)
    (status : OrderStatus) (emailOk : Bool) (p : Nat)
    (h : (processOrder db orderId status emailOk).result
        = .error (.insufficientStock p)) :
    (processOrder db orderId status emailOk).db = db := by
  unfold processOrder at h ⊢
  cases h1 : updateOrder db orderId status with
  | error e => simp [h1]
  | ok v =>
    obtain ⟨order, db1⟩ := v
    cases h2 : updateInventory order.items db1 with
    | error e => simp [h1, h2]
    | ok db2 =>
        cases emailOk <;> simp [h1, h2, sendOrderConfirmationEmail] at h

/-- Witness for C1, realising the spec's section 8 test: stock 1 of products
1 and 2, order asks for 2 of product 1 and 1 of product 2; the run fails
with insufficient stock on product 1 and the database is exactly the
pre-call one — neither product's stock is decremented and the order stays
`PENDING`. -/
theorem processOrder_atomic_on_inventory_failure_witness :
    (processOrder dbStockShort 0 .paid true).result
      = .error (.insufficientStock 1) ∧
    (processOrder dbStockShort 0 .paid true).db = dbStockShort :=
  ⟨rfl, processOrder_atomic_on_inventory_failure dbStockShort 0 .paid true 1 rfl⟩

/-- C2 counterexample: the confirmation email is sent inside the `try` block
and the `catch` block rethrows, so after a successful commit a notifier
failure IS propagated to the caller — `processOrder` throws the email error
instead of returning normally — even though the committed writes (status
`PAID`, inventory decremented) survive. -/
theorem processOrder_email_failure_is_propagated :
    (processOrder dbPendingOk 0 .paid false).result = .error .emailFailed ∧
    (processOrder dbPendingOk 0 .paid false).db = dbPendingOkCommitted :=
  ⟨rfl, rfl⟩

/-- C2 amended: for every order whose `processOrder` transaction commits
successfully, a subsequent notifier failure does not reverse the committed
transaction — the order's status stays at the target value and the
inventory decrements remain applied — but the failure IS re-raised to the
caller rather than swallowed. -/
theorem processOrder_commit_survives_notifier_failure (db : DB) (orderId : Nat)
    (status : OrderStatus) (order : OrderRec) (db1 db2 : DB)
    (h1 : updateOrder db orderId status = .ok (order, db1))
    (h2 : updateInventory order.items db1 = .ok db2) :
    (processOrder db orderId status false).result = .error .emailFailed ∧
    (processOrder db orderId status false).db = db2 := by
  unfold processOrder
  simp [h1, h2, sendOrderConfirmationEmail]

/-- Witness for C2: on the concrete `PENDING` order with sufficient stock, a
failing notifier leaves the database in the committed state (status `PAID`,
stock decremented from 2 to 1) while the email error surfaces. -/
theorem processOrder_commit_survives_notifier_failure_witness :
    (processOrder dbPendingOk 0 .paid false).result = .error .emailFailed ∧
    (processOrder dbPendingOk 0 .paid false).db = dbPendingOkCommitted :=
  processOrder_commit_survives_notifier_failure dbPendingOk 0 .paid
    { items := [⟨1, 1⟩], amount := 5, status := .paid }
    dbPendingOkPaid dbPendingOkCommitted rfl rfl

/-- C3 counterexample: `updateOrder` overwrites the status unconditionally,
so a status listed as terminal is not terminal in the code — the order of
`dbPaid` is already `PAID`, yet `processOrder` with target `CANCELLED`
moves it to `CANCELLED`. -/
theorem processOrder_changes_terminal_status :
    findOrder 0 dbPaid.orders
      = some { items := [⟨1, 1⟩], amount := 5, status := .paid } ∧
    (findOrder 0 (processOrder dbPaid 0 .cancelled true).db.orders).map
        OrderRec.status = some .cancelled :=
  ⟨rfl, rfl⟩

/-- C3 amended: `processOrder` performs no transition-guard check: for every
existing order — whatever its current status, including `PAID`, `FAILED`
and `CANCELLED` — a run whose transaction commits sets the status to the
requested target unconditionally. -/
theorem processOrder_overwrites_status_unconditionally (db : DB) (orderId : Nat)
    (status : OrderStatus) (emailOk : Bool) (order : OrderRec) (db1 db2 : DB)
    (h1 : updateOrder db orderId status = .ok (order, db1))
    (h2 : updateInventory order.items db1 = .ok db2) :
    order.status = status ∧
    findOrder orderId (processOrder db orderId status emailOk).db.orders
      = some order := by
  have hdb := processOrder_db_committed db orderId status emailOk order db1 db2 h1 h2
  have hupd := updateOrder_ok db orderId status order db1 h1
  have horders := updateInventory_preserves_orders order.items db1 db2 h2
  refine ⟨hupd.1, ?_⟩
  rw [hdb, horders]
  exact hupd.2

/-- Witness for C3: the concrete `PAID` order of `dbPaid` is moved to
`CANCELLED` by a committing `processOrder` run. -/
theorem processOrder_overwrites_status_unconditionally_witness :
    ({ items := [⟨1, 1⟩], amount := 5, status := .cancelled } : OrderRec).status
      = .cancelled ∧
    findOrder 0 (processOrder dbPaid 0 .cancelled true).db.orders
      = some { items := [⟨1, 1⟩], amount := 5, status := .cancelled } :=
  processOrder_overwrites_status_unconditionally dbPaid 0 .cancelled true
    { items := [⟨1, 1⟩], amount := 5, status := .cancelled }
    dbPaidCancelledMid dbPaidCancelledDone rfl rfl

/-- C7: on every execution of `processOrder` — success, not-found,
inventory failure, or notifier failure — the client session acquired at the
start is started once and ended exactly once before the call returns or
rethrows; no exit path leaks the session. -/
theorem processOrder_releases_session_once (db : DB) (orderId : Nat)
    (status : OrderStatus) (emailOk : Bool) :
    (processOrder db orderId status emailOk).sessionsEnded = 1 ∧
    (processOrder db orderId status emailOk).sessionsStarted = 1 := by
  unfold processOrder
  cases h1 : updateOrder db orderId status with
  | error e => simp [h1]
  | ok v =>
    obtain ⟨order, db1⟩ := v
    cases h2 : updateInventory order.items db1 with
    | error e => simp [h1, h2]
    | ok db2 =>
        cases h3 : sendOrderConfirmationEmail emailOk with
        | ok u => simp [h1, h2, h3]
        | error e => simp [h1, h2, h3]

/-- C6: `processOrder` fails with `NotFound` exactly when no order with the
given identity exists; in that case the transaction is aborted, the error is
re-raised to the caller, and neither the order store nor the inventory is
modified — the durable state equals the pre-call state. -/
theorem processOrder_notFound_characterisation (db : DB) (orderId : Nat)
    (status : OrderStatus) (emailOk : Bool) :
    ((∃ msg, (processOrder db orderId status emailOk).result
        = .error (.notFound msg)) ↔ findOrder orderId db.orders = none) ∧
    (findOrder orderId db.orders = none →
      (processOrder db orderId status emailOk).db = db) := by
  constructor
  · constructor
    · rintro ⟨msg, hmsg⟩
      cases hset : setOrderStatus orderId status db.orders with
      | none => exact (setOrderStatus_none_iff orderId status db.orders).mp hset
      | some v =>
          obtain ⟨o, orders'⟩ := v
          have hu : updateOrder db orderId status
              = .ok (o, { db with orders := orders' }) := by
            unfold updateOrder
            rw [hset]
          unfold processOrder at hmsg
          rw [hu] at hmsg
          cases hi : updateInventory o.items { db with orders := orders' } with
          | error e =>
              obtain ⟨p, hp⟩ := updateInventory_error_is_stock o.items _ e hi
              subst hp
              simp [hi] at hmsg
          | ok db2 =>
              cases emailOk <;> simp [hi, sendOrderConfirmationEmail] at hmsg
    · intro hnone
      have hset := (setOrderStatus_none_iff orderId status db.orders).mpr hnone
      refine ⟨"Order with ID " ++ toString orderId ++ " not found", ?_⟩
      unfold processOrder updateOrder
      simp [hset]
  · intro hnone
    have hset := (setOrderStatus_none_iff orderId status db.orders).mpr hnone
    unfold processOrder updateOrder
    simp [hset]

/-- Witness for C6: on the empty database a `processOrder` for order 5
throws the not-found error and leaves the database untouched. -/
theorem processOrder_notFound_characterisation_witness :
    (∃ msg, (processOrder dbEmpty 5 .paid true).result
        = .error (.notFound msg)) ∧
    (processOrder dbEmpty 5 .paid true).db = dbEmpty :=
  ⟨(processOrder_notFound_characterisation dbEmpty 5 .paid true).1.mpr rfl,
   (processOrder_notFound_characterisation dbEmpty 5 .paid true).2 rfl⟩

/-- C4: `placeOrder` persists the new order in status `PENDING` under a
fresh identity whether or not the gateway call succeeds — so the order is
durably persisted before (and independently of) the payment call — and
whenever a payment intent is returned to the caller, the intent was created
with a metadata mapping carrying that persisted order's identity. -/
theorem placeOrder_persists_then_pays (db : DB) (dto : CreateOrderDto)
    (stripeCustomerId : String) (gatewayUp : Bool) (secret : Nat)
    (hfresh : findOrder db.nextId db.orders = none) :
    findOrder db.nextId
        (placeOrder db dto stripeCustomerId gatewayUp secret).2.orders
      = some { items := dto.items, amount := dto.amount, status := .pending } ∧
    ∀ resp, (placeOrder db dto stripeCustomerId gatewayUp secret).1 = .ok resp →
      ∃ pi, createPaymentIntent true secret dto.amount db.nextId stripeCustomerId
          = .ok pi ∧
        pi.metadata_order_id = db.nextId ∧
        resp.client_secret = pi.client_secret := by
  have hpersist :
      (placeOrder db dto stripeCustomerId gatewayUp secret).2.orders
        = db.orders ++ [(db.nextId,
            { items := dto.items, amount := dto.amount, status := .pending })] := by
    unfold placeOrder createOrder
    cases gatewayUp <;> simp [createPaymentIntent]
  refine ⟨?_, ?_⟩
  · rw [hpersist]
    exact findOrder_append_self db.nextId _ db.orders hfresh
  · intro resp hresp
    cases gatewayUp with
    | false =>
        unfold placeOrder createOrder at hresp
        simp [createPaymentIntent] at hresp
    | true =>
        have h2 : Except.ok (ε := OrderError)
            ({ client_secret := secret } : PlaceOrderResponse) = .ok resp := hresp
        injection h2 with h3
        refine ⟨{ intentId := secret, client_secret := secret, amount := dto.amount,
                  metadata_order_id := db.nextId, customer := stripeCustomerId },
                rfl, rfl, ?_⟩
        rw [← h3]

/-- Witness for C4: placing a one-item order on the empty database with the
gateway up persists order 0 as `PENDING` and the returned secret comes from
an intent whose metadata order id is 0. -/
theorem placeOrder_persists_then_pays_witness :
    findOrder 0 (placeOrder dbEmpty ⟨[⟨1, 1⟩], 5⟩ "cus_1" true 7).2.orders
      = some { items := [⟨1, 1⟩], amount := 5, status := .pending } ∧
    ∀ resp, (placeOrder dbEmpty ⟨[⟨1, 1⟩], 5⟩ "cus_1" true 7).1 = .ok resp →
      ∃ pi, createPaymentIntent true 7 5 0 "cus_1" = .ok pi ∧
        pi.metadata_order_id = 0 ∧ resp.client_secret = pi.client_secret :=
  placeOrder_persists_then_pays dbEmpty ⟨[⟨1, 1⟩], 5⟩ "cus_1" true 7 rfl

/-- C5: when payment-intent creation fails after `placeOrder` has persisted
the order, the gateway error is surfaced to the caller and the persisted
order is not rolled back: the final store is exactly the pre-call store plus
the new order in status `PENDING`, which is found under its fresh id. -/
theorem placeOrder_gateway_failure_keeps_pending (db : DB) (dto : CreateOrderDto)
    (stripeCustomerId : String) (secret : Nat)
    (hfresh : findOrder db.nextId db.orders = none) :
    (placeOrder db dto stripeCustomerId false secret).1 = .error .gatewayError ∧
    (placeOrder db dto stripeCustomerId false secret).2
      = { db with
            orders := db.orders ++ [(db.nextId,
              { items := dto.items, amount := dto.amount, status := .pending })],
            nextId := db.nextId + 1 } ∧
    findOrder db.nextId
        (placeOrder db dto stripeCustomerId false secret).2.orders
      = some { items := dto.items, amount := dto.amount, status := .pending } := by
  refine ⟨rfl, rfl, ?_⟩
  exact findOrder_append_self db.nextId _ db.orders hfresh

/-- Witness for C5: on the empty database with the gateway down, the caller
gets the gateway error and order 0 sits in the store in status `PENDING`. -/
theorem placeOrder_gateway_failure_keeps_pending_witness :
    (placeOrder dbEmpty ⟨[⟨1, 1⟩], 5⟩ "cus_1" false 7).1 = .error .gatewayError ∧
    (placeOrder dbEmpty ⟨[⟨1, 1⟩], 5⟩ "cus_1" false 7).2
      = { dbEmpty with
            orders := [(0, { items := [⟨1, 1⟩], amount := 5, status := .pending })],
            nextId := 1 } ∧
    findOrder 0 (placeOrder dbEmpty ⟨[⟨1, 1⟩], 5⟩ "cus_1" false 7).2.orders
      = some { items := [⟨1, 1⟩], amount := 5, status := .pending } :=
  placeOrder_gateway_failure_keeps_pending dbEmpty ⟨[⟨1, 1⟩], 5⟩ "cus_1" 7 rfl

/-- C9: when the gateway call succeeds, `placeOrder` returns precisely the
intent's client-confirmable secret, where the intent was created from the
requested amount, a metadata mapping carrying the new order's identity, and
the caller's Stripe customer reference; the call returns as soon as the
intent exists, without waiting for payment completion. -/
theorem placeOrder_success_returns_client_secret (db : DB) (dto : CreateOrderDto)
    (stripeCustomerId : String) (secret : Nat) :
    ∃ pi : PaymentIntent,
      createPaymentIntent true secret dto.amount db.nextId stripeCustomerId
        = .ok pi ∧
      pi.amount = dto.amount ∧
      pi.metadata_order_id = db.nextId ∧
      pi.customer = stripeCustomerId ∧
      (placeOrder db dto stripeCustomerId true secret).1
        = .ok { client_secret := pi.client_secret } :=
  ⟨{ intentId := secret, client_secret := secret, amount := dto.amount,
     metadata_order_id := db.nextId, customer := stripeCustomerId },
   rfl, rfl, rfl, rfl, rfl⟩

/-- C10: the two CartService variants are behaviourally equivalent modulo
method renaming: for every cart-store state and every input, each pair of
corresponding operations returns the same result (or the same `NotFound`
error) and leaves the store in the same state. -/
theorem cartServices_equivalent :
    ∀ (store : CartStore) (id itemId : Nat) (userId : String)
      (newItem : CreateItemDto) (updDto : UpdateItemDto)
      (addDto : AddShippingOptionsDto) (remDto : RemoveShippingOptionDto),
      CartServiceA.getById store id = CartServiceB.getCartById store id ∧
      CartServiceA.getWithItemsById store id
        = CartServiceB.getCartWithItemsById store id ∧
      CartServiceA.getWithItemsByUserId store userId
        = CartServiceB.getWithItemsByUserId store userId ∧
      CartServiceA.addItem store userId newItem
        = CartServiceB.addItemToCart store userId newItem ∧
      CartServiceA.updateItem store id newItem
        = CartServiceB.updateItemInCart store id newItem ∧
      CartServiceA.removeItem store id itemId
        = CartServiceB.removeItemFromCart store id itemId ∧
      CartServiceA.updateItemQuantity store id itemId updDto
        = CartServiceB.updateItemQuantityInCart store id itemId updDto ∧
      CartServiceA.addShippingOption store id addDto
        = CartServiceB.addShippingToCart store id addDto ∧
      CartServiceA.removeShippingOption store id remDto
        = CartServiceB.removeShippingInCart store id remDto ∧
      CartServiceA.remove store id = CartServiceB.removeCart store id :=
  fun _ _ _ _ _ _ _ _ =>
    ⟨rfl, rfl, rfl, rfl, rfl, rfl, rfl, rfl, rfl, rfl⟩

end GldCart
